import Mathlib

/-!
# Verification of FrEIA's `reversible_graph_net.py`

Shallow embedding of `src/FrEIA/framework/reversible_graph_net.py`:
the `Node.parse_inputs` canonicalization, the dynamic `out<k>` attribute
access, the `topological_order` scheduler (together with the argument
order actually used at its call site in `ReversibleGraphNet.__init__`),
and the `ReversibleGraphNet.forward` execution engine (seeding of the
edge-value table, the per-node module-contract checks, the Jacobian
accumulation, and the construction of the returned value).

Python objects used as dictionary keys are modelled by natural-number
identities.  Tensors are modelled by integers (their values are opaque to
the engine).  Python dictionaries become association lists, Python sets
become duplicate-free lists, and every operation that can raise becomes an
`Except`.
-/

namespace FrEIA

/-! ## Dictionaries and sets used by `topological_order` -/

/-- Lookup in a Python dict modelled as an association list
(`d[k]` returning `None` here instead of raising; the raising variant is
handled at the use sites). -/
def dictGet (d : List (Nat × List Nat)) (k : Nat) : Option (List Nat) :=
  match d with
  | [] => none
  | (a, v) :: rest => if a = k then some v else dictGet rest k

/-- `d[k] = v` on a Python dict modelled as an association list. -/
def dictSet (d : List (Nat × List Nat)) (k : Nat) (v : List Nat) :
    List (Nat × List Nat) :=
  match d with
  | [] => [(k, v)]
  | (a, w) :: rest =>
    if a = k then (k, v) :: rest else (a, w) :: dictSet rest k v

/-- `defaultdict(set)` access: a missing key reads as the empty set. -/
def ddGet (d : List (Nat × List Nat)) (k : Nat) : List Nat :=
  (dictGet d k).getD []

/-- Python `set.add` on a set modelled as a duplicate-free list. -/
def setAdd (s : List Nat) (x : Nat) : List Nat :=
  if x ∈ s then s else s ++ [x]

/-- The set comprehension `{node_a for node_a, out_idx in node_b.inputs}`
(line 401): the producers of a node, deduplicated. -/
def dedupProducers (inputs : List (Nat × Nat)) : List Nat :=
  inputs.foldl (fun s p => setAdd s p.1) []

/-- `edges_out_to_in` (lines 401-402): dependency dict built over exactly
the node list `keys` (in the source: `all_nodes + out_nodes`). -/
def buildOutToIn (keys : List Nat) (inputsOf : Nat → List (Nat × Nat)) :
    List (Nat × List Nat) :=
  keys.foldl (fun d b => dictSet d b (dedupProducers (inputsOf b))) []

/-- `edges_in_to_out` (lines 403-406): the mirror map, node to the set of
its direct consumers, built from `edges_out_to_in`. -/
def buildInToOut (o2i : List (Nat × List Nat)) : List (Nat × List Nat) :=
  o2i.foldl
    (fun d bp =>
      bp.2.foldl (fun d2 a => dictSet d2 a (setAdd (ddGet d2 a) bp.1)) d)
    []

/-- The errors `topological_order` and the surrounding construction can
raise: `KeyError` from `edges_out_to_in[node]` on a missing key
(line 415), the `AssertionError` of lines 422-425, the
`ValueError("Graph is cyclic.")` of line 430 and the `assert`s of
`ReversibleGraphNet.__init__` lines 199 and 213.  `noFuel` is an artifact
of the fuelled loop and is never produced for the inputs considered
here. -/
inductive TopoErr where
  | keyError (n : Nat)
  | inputNotConnected (n : Nat)
  | cyclic
  | noInputNodes
  | noOutputNodes
  | noFuel
  deriving DecidableEq

/-- Inner loop of lines 415-420: for each producer `a` of the popped
`node`, remove the edge from both dicts and append `a` to the frontier
when its consumer set becomes empty. -/
def procProducers (producers : List Nat) (node : Nat)
    (o2i i2o : List (Nat × List Nat)) (frontier : List Nat) :
    List (Nat × List Nat) × List (Nat × List Nat) × List Nat :=
  match producers with
  | [] => (o2i, i2o, frontier)
  | a :: rest =>
    let o2i2 := dictSet o2i node ((ddGet o2i node).erase a)
    let s := (ddGet i2o a).erase node
    let i2o2 := dictSet i2o a s
    let frontier2 := if s = [] then frontier ++ [a] else frontier
    procProducers rest node o2i2 i2o2 frontier2

/-- Kahn's loop of lines 412-420, with explicit fuel.  Popping a node that
is not a key of `edges_out_to_in` raises `KeyError` exactly as
`edges_out_to_in[node]` does at line 415. -/
def kahnLoop (fuel : Nat) (frontier sortedAcc : List Nat)
    (o2i i2o : List (Nat × List Nat)) :
    Except TopoErr (List Nat × List (Nat × List Nat)) :=
  match fuel with
  | 0 => .error .noFuel
  | fuel' + 1 =>
    match frontier with
    | [] => .ok (sortedAcc, i2o)
    | node :: rest =>
      match dictGet o2i node with
      | none => .error (.keyError node)
      | some producers =>
        let step := procProducers producers node o2i i2o rest
        kahnLoop fuel' step.2.2 (sortedAcc ++ [node]) step.1 step.2.1

/-- Total number of recorded dependency edges, used both for the fuel
bound and for the cycle test `sum(map(len, edges_in_to_out.values()))`
(line 427). -/
def edgeCount (d : List (Nat × List Nat)) : Nat :=
  d.foldl (fun a p => a + p.2.length) 0

/-- `topological_order` (lines 386-430), faithful to the source's own
parameter meanings: the dependency dicts are built over
`all_nodes + out_nodes`, Kahn's traversal is seeded from `out_nodes`,
every member of `in_nodes` is asserted to occur in the result, remaining
edges raise the cyclic error, and the result is reversed. -/
def topological_order (all_nodes in_nodes out_nodes : List Nat)
    (inputsOf : Nat → List (Nat × Nat)) : Except TopoErr (List Nat) :=
  let o2i := buildOutToIn (all_nodes ++ out_nodes) inputsOf
  let i2o := buildInToOut o2i
  let fuel := out_nodes.length + edgeCount o2i + 1
  match kahnLoop fuel out_nodes [] o2i i2o with
  | .error e => .error e
  | .ok (sortedNodes, i2oFinal) =>
    match in_nodes.find? (fun n => !(sortedNodes.contains n)) with
    | some n => .error (.inputNotConnected n)
    | none =>
      if edgeCount i2oFinal = 0 then .ok sortedNodes.reverse
      else .error .cyclic

/-- Node kinds, mirroring the `isinstance` based boundary detection of
`ReversibleGraphNet.__init__` (lines 197-216). -/
inductive NKind where
  | inputK
  | outputK
  | condK
  | internalK
  deriving DecidableEq, BEq

/-- The view of a node that the scheduler consumes: its identity, its
`inputs` list of `(producer, out_idx)` pairs, and its kind. -/
structure TNode where
  tid : Nat
  tinputs : List (Nat × Nat)
  kind : NKind

/-- The `.inputs` of the node with identity `n` inside `node_list`. -/
def inputsIn (node_list : List TNode) (n : Nat) : List (Nat × Nat) :=
  ((node_list.find? (fun t => t.tid == n)).map (fun t => t.tinputs)).getD []

/-- The graph-construction path of `ReversibleGraphNet.__init__`
(lines 197-220): detect input and output boundary nodes by kind, assert
both nonempty, then invoke the scheduler exactly as line 220 does —
`topological_order(in_nodes, node_list, out_nodes)`, i.e. with the
input-node list passed in the `all_nodes` position and the full node list
passed in the `in_nodes` position. -/
def rgn_construct_order (node_list : List TNode) : Except TopoErr (List Nat) :=
  let in_ids := (node_list.filter (fun t => t.kind == NKind.inputK)).map
    (fun t => t.tid)
  let out_ids := (node_list.filter (fun t => t.kind == NKind.outputK)).map
    (fun t => t.tid)
  let all_ids := node_list.map (fun t => t.tid)
  if in_ids = [] then .error .noInputNodes
  else if out_ids = [] then .error .noOutputNodes
  else topological_order in_ids all_ids out_ids (inputsIn node_list)

/-! ### Concrete graphs exercising the construction path -/

/-- A plain three-node chain: input `0` feeding internal node `1` feeding
output node `2`. -/
def chainNodes : List TNode :=
  [⟨0, [], NKind.inputK⟩,
   ⟨1, [(0, 0)], NKind.internalK⟩,
   ⟨2, [(1, 0)], NKind.outputK⟩]

/-- A graph with a dependency cycle between the internal nodes `1` and
`2`: input `0` and the cycle `1 ↔ 2`, with `1` also feeding output `3`. -/
def cyclicNodes : List TNode :=
  [⟨0, [], NKind.inputK⟩,
   ⟨1, [(2, 0), (0, 0)], NKind.internalK⟩,
   ⟨2, [(1, 0)], NKind.internalK⟩,
   ⟨3, [(1, 0)], NKind.outputK⟩]

/-- A chain `0 → 2 → 3` plus a second input node `1` connected to
nothing. -/
def danglingInputNodes : List TNode :=
  [⟨0, [], NKind.inputK⟩,
   ⟨1, [], NKind.inputK⟩,
   ⟨2, [(0, 0)], NKind.internalK⟩,
   ⟨3, [(2, 0)], NKind.outputK⟩]

/-! ## `Node.parse_inputs` (lines 79-106)

Python values that can appear as an input specification: a `Node`, an
`int`, or a sequence (list/tuple) of further such values. -/

/-- Dynamically typed Python value for `parse_inputs`. -/
inductive PyIn where
  | node (n : Nat)
  | int (k : Int)
  | seq (xs : List PyIn)

/-- `isinstance(x, (list, tuple))`. -/
def PyIn.isSeq : PyIn → Bool
  | .seq _ => true
  | _ => false

/-- Errors of `parse_inputs`: the `RuntimeError` of lines 100-101 and the
`assert isinstance(inputs, Node)` of lines 103-105. -/
inductive PErr where
  | cannotParse
  | assertNotNode
  deriving DecidableEq

/-- `Node.parse_inputs` (lines 92-106): an empty sequence is returned
unchanged; a nonempty sequence whose first element is a sequence is
returned unchanged; otherwise a length-2 sequence is wrapped into a
singleton list; any other sequence raises; a bare node becomes
`[(node, 0)]`; any other atom fails the node assertion. -/
def parse_inputs : PyIn → Except PErr PyIn
  | .seq xs =>
    match xs with
    | [] => .ok (.seq [])
    | x :: rest =>
      if x.isSeq then .ok (.seq (x :: rest))
      else if (x :: rest).length = 2 then .ok (.seq [.seq (x :: rest)])
      else .error .cannotParse
  | .node n => .ok (.seq [.seq [.node n, .int 0]])
  | .int _ => .error .assertNotNode

/-! ## Dynamic `out<k>` attribute access (lines 32-33 and 61-64) -/

/-- The per-instance attributes `self.out0 … self.out255` installed by the
`exec` loop of lines 32-33: present exactly for `k < 256`, each holding
the pair `(self, k)`. -/
def instance_out_attrs (selfId k : Nat) : Option (Nat × Nat) :=
  if k < 256 then some (selfId, k) else none

/-- `Node.__getattr__` on the attribute name `"out" + str(k)`
(lines 61-64): returns `(self, int(k))`. -/
def getattr_out (selfId k : Nat) : Nat × Nat := (selfId, k)

/-- Python attribute lookup of `node.out<k>`: the instance attribute when
it exists, otherwise `__getattr__`. -/
def out_attr (selfId k : Nat) : Nat × Nat :=
  match instance_out_attrs selfId k with
  | some v => v
  | none => getattr_out selfId k

/-! ## The execution engine `ReversibleGraphNet.forward` (lines 241-324) -/

/-- The Python value a module returns in the Jacobian slot: `None`, a
tensor, or something else. -/
inductive PyJac where
  | pynone
  | pytensor (j : Int)
  | pyother
  deriving DecidableEq

/-- `torch.is_tensor` on the Jacobian slot. -/
def PyJac.isTensor : PyJac → Bool
  | .pytensor _ => true
  | _ => false

/-- The first component of a module's returned pair: a bare tensor or a
list/tuple of tensors (line 287 distinguishes the two). -/
inductive OutVal where
  | tensorOut (v : Int)
  | listOut (vs : List Int)

/-- A module invocation result as the dynamically-typed Python value the
engine inspects: a bare tensor (line 274), a tuple of length `≠ 2`
(line 280), or the pair `(out, jac)`. -/
inductive ModRet where
  | bareTensor
  | wrongTuple (n : Nat)
  | pairRet (out : OutVal) (jac : PyJac)

/-- A pluggable module: from input tensors, condition tensors, `rev` and
`jac` to its returned value. -/
def ModFun := List Int → List Int → Bool → Bool → ModRet

/-- A node as the execution engine sees it: identity, `inputs` and
`outputs` edge lists of `(node, slot)` pairs, condition-node list, and the
module (`None` for boundary nodes). -/
structure GNode where
  nid : Nat
  inputs : List (Nat × Nat)
  outputs : List (Nat × Nat)
  conditions : List Nat
  module : Option ModFun

/-- Keys of the edge-value table `outs`.  The reads at lines 252, 254,
263, 265 and 320 use `(node, slot)` pairs; the writes at lines 311-312
use `(self, out_idx)` with `self` the `ReversibleGraphNet` itself, a
distinct dictionary key. -/
inductive OutKey where
  | node (n : Nat) (slot : Nat)
  | net (slot : Nat)
  deriving DecidableEq

/-- Runtime errors of `forward`: `KeyError` on a missing edge-value entry,
`TypeError` from calling a boundary node's `None` module, the
`ValueError`s of lines 274-309, and the `TypeError` from
`None + mod_jac` at line 315. -/
inductive ExecErr where
  | keyNotFound (k : OutKey)
  | noneNotCallable (nid : Nat)
  | returnedTensorOnly (nid : Nat)
  | badTupleLen (nid : Nat) (len : Nat)
  | returnedTensorOut (nid : Nat)
  | wrongOutCount (nid : Nat) (got expected : Nat)
  | nonTensorJac (nid : Nat)
  | neitherNoneNorJac (nid : Nat)
  | noneAddTypeError
  | deadJacAdd
  deriving DecidableEq

/-- The edge-value table `outs`. -/
def Tbl := List (OutKey × Int)

instance : DecidableEq Tbl := inferInstanceAs (DecidableEq (List (OutKey × Int)))

/-- Dictionary read on the edge-value table. -/
def tget (t : Tbl) (k : OutKey) : Option Int :=
  match t with
  | [] => none
  | (a, v) :: rest => if a = k then some v else tget rest k

/-- Dictionary write on the edge-value table. -/
def tset (t : Tbl) (k : OutKey) (v : Int) : Tbl :=
  match t with
  | [] => [(k, v)]
  | (a, w) :: rest =>
    if a = k then (k, v) :: rest else (a, w) :: tset rest k v

/-- Seeding loop of lines 250-254: `zip` the provided tensors against the
boundary-node list (truncating to the shorter) and write each pair under
key `(start_node, 0)`. -/
def seedInto (outs : Tbl) (xs : List Int) (ns : List Nat) : Tbl :=
  (xs.zip ns).foldl (fun t p => tset t (OutKey.node p.2 0) p.1) outs

/-- Gather loop of lines 260-265: read each required `(node, slot)` entry,
raising `KeyError` when absent. -/
def gather (t : Tbl) (refs : List (Nat × Nat)) : Except ExecErr (List Int) :=
  match refs with
  | [] => .ok []
  | (p, ch) :: rest =>
    match tget t (.node p ch) with
    | none => .error (.keyNotFound (.node p ch))
    | some v =>
      match gather t rest with
      | .error e => .error e
      | .ok vs => .ok (v :: vs)

/-- The Jacobian-slot contract check of lines 301-309: when the value is
not a tensor, raise if tracking is enabled; otherwise raise only if it is
also not `None`.  A tensor always passes, whatever the tracking flag. -/
def jac_check (nid : Nat) (jacF : Bool) (mj : PyJac) : Except ExecErr Unit :=
  if mj.isTensor = false then
    if jacF then .error (.nonTensorJac nid)
    else if mj ≠ PyJac.pynone then .error (.neitherNoneNorJac nid)
    else .ok ()
  else .ok ()

/-- Write loop of lines 311-312: `outs[self, out_idx] = out_value` — the
produced tensors are stored under the *net's* key, not the visited
node's. -/
def writeOuts (t : Tbl) (vs : List Int) (i : Nat) : Tbl :=
  match vs with
  | [] => t
  | v :: rest => writeOuts (tset t (.net i) v) rest (i + 1)

/-- One iteration of the node loop (lines 257-315) for the visited
`node`. -/
def visit (node : GNode) (rev jacF : Bool) (outs : Tbl) (jacc : Option Int) :
    Except ExecErr (Tbl × Option Int) :=
  match gather outs (if rev then node.outputs else node.inputs) with
  | .error e => .error e
  | .ok mod_in =>
    match gather outs (node.conditions.map (fun c => (c, 0))) with
    | .error e => .error e
    | .ok mod_c =>
      match node.module with
      | none => .error (.noneNotCallable node.nid)
      | some f =>
        match f mod_in mod_c rev jacF with
        | .bareTensor => .error (.returnedTensorOnly node.nid)
        | .wrongTuple n => .error (.badTupleLen node.nid n)
        | .pairRet (.tensorOut _) _ => .error (.returnedTensorOut node.nid)
        | .pairRet (.listOut out) mj =>
          let expected := (if rev then node.inputs else node.outputs).length
          if out.length ≠ expected then
            .error (.wrongOutCount node.nid out.length expected)
          else
            match jac_check node.nid jacF mj with
            | .error e => .error e
            | .ok _ =>
              let outs2 := writeOuts outs out 0
              if jacF then
                match jacc with
                | none => .error .noneAddTypeError
                | some a =>
                  match mj with
                  | .pytensor j => .ok (outs2, some (a + j))
                  | _ => .error .deadJacAdd
              else .ok (outs2, jacc)

/-- The node loop over the (already direction-adjusted) order. -/
def run_nodes (order : List GNode) (rev jacF : Bool) (outs : Tbl)
    (jacc : Option Int) : Except ExecErr (Tbl × Option Int) :=
  match order with
  | [] => .ok (outs, jacc)
  | node :: rest =>
    match visit node rev jacF outs jacc with
    | .error e => .error e
    | .ok (outs2, j2) => run_nodes rest rev jacF outs2 j2

/-- What `__init__` stores on the net and `forward` consults: the
boundary-node identity lists and the `force_tuple_output` flag
(lines 231-235). -/
structure RGNet where
  in_nodes : List Nat
  condition_nodes : List Nat
  out_nodes : List Nat
  force_tuple_output : Bool

/-- The value a `forward` call returns (lines 317-324): the whole
edge-value table, a single tensor, or a tuple of tensors — each together
with the Jacobian accumulator. -/
inductive FwdRet where
  | single (v : Int) (j : Option Int)
  | multi (vs : List Int) (j : Option Int)
  | table (t : Tbl) (j : Option Int)
  deriving DecidableEq

/-- Final gather of line 320: `outs[(out_node, 0)]` for each node of
`self.out_nodes` (in both directions). -/
def gather_final (t : Tbl) (outNodes : List Nat) : Except ExecErr (List Int) :=
  match outNodes with
  | [] => .ok []
  | o :: rest =>
    match tget t (.node o 0) with
    | none => .error (.keyNotFound (.node o 0))
    | some v =>
      match gather_final t rest with
      | .error e => .error e
      | .ok vs => .ok (v :: vs)

/-- `ReversibleGraphNet.forward` (lines 241-324).  `node_list` stands for
the `self.node_list` attribute read at line 257 (an attribute `__init__`
as written never assigns; it is supplied here explicitly, holding the
topologically sorted nodes, to expose the loop's semantics).  The
accumulator starts as `None` (line 248), the table is seeded by `zip`
(lines 250-254), the loop walks the list reversed when `rev` (line 257),
and the result is assembled per lines 317-324. -/
def rgn_forward (net : RGNet) (node_list : List GNode) (x_or_z : List Int)
    (c : List Int) (rev jacF intermediate : Bool) : Except ExecErr FwdRet :=
  let outs0 := seedInto [] x_or_z (if rev then net.out_nodes else net.in_nodes)
  let outs1 := seedInto outs0 c net.condition_nodes
  let order := if rev then node_list.reverse else node_list
  match run_nodes order rev jacF outs1 none with
  | .error e => .error e
  | .ok (outs2, jacc) =>
    if intermediate then .ok (.table outs2 jacc)
    else
      match gather_final outs2 net.out_nodes with
      | .error e => .error e
      | .ok out_list =>
        match out_list, net.force_tuple_output with
        | [v], false => .ok (.single v jacc)
        | lst, _ => .ok (.multi lst jacc)

/-! ### Concrete nets and modules exercising the engine -/

/-- A one-in one-out module computing `x ↦ x + 1`, returning `None` in the
Jacobian slot. -/
def modPlusOne : ModFun :=
  fun ins _ _ _ => .pairRet (.listOut (ins.map (fun v => v + 1))) .pynone

/-- A one-in one-out module computing `x ↦ x - 5`, returning `None` in the
Jacobian slot. -/
def modMinusFive : ModFun :=
  fun ins _ _ _ => .pairRet (.listOut (ins.map (fun v => v - 5))) .pynone

/-- A one-in one-out module computing `x ↦ x + 1` that always returns the
Jacobian tensor `7`. -/
def modJacSeven : ModFun :=
  fun ins _ _ _ => .pairRet (.listOut (ins.map (fun v => v + 1))) (.pytensor 7)

/-- Internal node `1`, consuming input node `0` and feeding node `2`. -/
def nodeA : GNode := ⟨1, [(0, 0)], [(2, 0)], [], some modPlusOne⟩

/-- Internal node `2`, consuming node `1` and feeding output node `3`. -/
def nodeB : GNode := ⟨2, [(1, 0)], [(3, 0)], [], some modPlusOne⟩

/-- Internal node `1`, consuming input node `0` and feeding output node
`3`, with module `modMinusFive`. -/
def nodeR : GNode := ⟨1, [(0, 0)], [(3, 0)], [], some modMinusFive⟩

/-- Internal node `1`, consuming input node `0` and feeding node `2`, with
module `modJacSeven`. -/
def nodeJ : GNode := ⟨1, [(0, 0)], [(2, 0)], [], some modJacSeven⟩

/-- A net with input node `0` and output node `3`, no conditions, no
forced tuple output. -/
def netIO : RGNet := ⟨[0], [], [3], false⟩

/-! ## Claim theorems -/

/-- C1: the construction path does not behave as claimed.  On the plain
three-node chain (input `0` → internal `1` → output `2`), a valid acyclic
graph, `ReversibleGraphNet.__init__`'s call
`topological_order(in_nodes, node_list, out_nodes)` (line 220) passes the
input-node list in the `all_nodes` position, so the dependency map covers
only the input- and output-boundary nodes; popping the internal node `1`
then raises `KeyError` instead of producing the complete order
`[0, 1, 2]`. -/
theorem c1_chain_construction_keyerror :
    rgn_construct_order chainNodes = .error (.keyError 1) := rfl

/-- C2: during execution the produced tensors are not written under
`(this node, out_idx)` as claimed but under `(self, out_idx)` with `self`
the `ReversibleGraphNet` (lines 311-312).  On the chain input `0` →
node `1` → node `2` → output `3`, node `1`'s output is stored under the
net's key, so node `2`'s gather of `outs[(1, 0)]` raises `KeyError`. -/
theorem c2_forward_write_key_bug :
    rgn_forward netIO [nodeA, nodeB] [5] [] false false true
      = .error (.keyNotFound (.node 1 0)) := rfl

/-- C3: a backward execution call does not return the input-boundary
tensors.  Line 320 always gathers `self.out_nodes`, so on the chain
input `0` → node `1` (module `x ↦ x - 5`) → output `3`, the backward call
returns exactly the tensor `x` the caller seeded at the output node — not
the computed input-boundary value `x - 5`. -/
theorem c3_backward_returns_seeded_outputs (x : Int) :
    rgn_forward netIO [nodeR] [x] [] true false false
      = .ok (.single x none) := rfl

/-- C4: with Jacobian tracking enabled the accumulator never equals the
claimed running sum: it is initialized to `None` (line 248) and line 315
evaluates `None + mod_jac` on the first visited node, raising
`TypeError`.  Here node `1`'s module returns the Jacobian tensor `7` and
the call errors instead of returning the sum `7`. -/
theorem c4_jacobian_none_add_error (x : Int) :
    rgn_forward netIO [nodeJ] [x] [] false true true
      = .error .noneAddTypeError := rfl

/-- C5 counterexample: a module that returns the Jacobian tensor `7`
while tracking is disabled (`jac=False`) raises no contract-violation
error — the execution call completes normally, refuting the claim that a
non-absent Jacobian with tracking disabled is rejected. -/
theorem c5_silent_tensor_jacobian_counterexample :
    rgn_forward netIO [nodeJ] [2] [] false false true
      = .ok (.table [(.node 0 0, 2), (.net 0, 3)] none) := rfl

/-- C5 amended: the check of lines 301-309 accepts the Jacobian slot
exactly when it is a tensor (whatever the tracking flag) or when tracking
is disabled and it is `None`; so a non-tensor value raises when tracking
is enabled, a value that is neither `None` nor a tensor raises when
tracking is disabled, and a tensor returned while tracking is disabled is
accepted silently. -/
theorem c5_jac_check_amended (nid : Nat) (jacF : Bool) (mj : PyJac) :
    jac_check nid jacF mj = .ok () ↔
      (mj.isTensor = true ∨ (jacF = false ∧ mj = PyJac.pynone)) := by
  cases jacF <;> cases mj <;> simp [jac_check, PyJac.isTensor]

/-- C6: a dependency cycle between the internal nodes `1` and `2` does
make construction fail, but not with the claimed `"Graph is cyclic"`
error: because line 220 passes the input-node list in the `all_nodes`
position, the internal node `1` is absent from the dependency map and
construction raises `KeyError` when `1` is popped, before the cycle test
of lines 427-430 can run. -/
theorem c6_cyclic_graph_keyerror :
    rgn_construct_order cyclicNodes = .error (.keyError 1) := rfl

/-- C7: an input-boundary node (`1`) connected to no output does make
construction fail, but not with the claimed connectivity error: with the
swapped arguments of line 220 the internal node `2` of the chain
`0 → 2 → 3` is absent from the dependency map and construction raises
`KeyError` on `2` before the assertion of lines 422-425 is reached. -/
theorem c7_dangling_input_keyerror :
    rgn_construct_order danglingInputNodes = .error (.keyError 2) := rfl

/-- C8 counterexample: the two-element list `[node 1, node 2]` is not a
bare node, not a `(node, slot)` pair and not a list of pairs, yet
`parse_inputs` accepts it (wrapping it as a singleton) instead of raising
the claimed construction error. -/
theorem c8_two_nodes_accepted_counterexample :
    parse_inputs (.seq [.node 1, .node 2])
      = .ok (.seq [.seq [.node 1, .node 2]]) := rfl

/-- C8 amended: `parse_inputs` canonicalizes a bare node to `[(node, 0)]`
and returns the empty list and any nonempty sequence whose first element
is a sequence unchanged (later elements unvalidated); any two-element
sequence whose first element is not a sequence — not only a genuine
`(node, slot)` pair — is wrapped into a singleton list; every other
sequence raises the parse error, and every non-node non-sequence atom
fails the node assertion. -/
theorem c8_parse_inputs_amended :
    (∀ n : Nat, parse_inputs (.node n) = .ok (.seq [.seq [.node n, .int 0]]))
  ∧ (parse_inputs (.seq []) = .ok (.seq []))
  ∧ (∀ (x : PyIn) (rest : List PyIn), x.isSeq = true →
      parse_inputs (.seq (x :: rest)) = .ok (.seq (x :: rest)))
  ∧ (∀ x y : PyIn, x.isSeq = false →
      parse_inputs (.seq [x, y]) = .ok (.seq [.seq [x, y]]))
  ∧ (∀ (x : PyIn) (rest : List PyIn), x.isSeq = false → rest.length ≠ 1 →
      parse_inputs (.seq (x :: rest)) = .error .cannotParse)
  ∧ (∀ k : Int, parse_inputs (.int k) = .error .assertNotNode) := by
  refine ⟨fun n => rfl, rfl, ?_, ?_, ?_, fun k => rfl⟩
  · intro x rest h
    simp [parse_inputs, h]
  · intro x y h
    simp [parse_inputs, h]
  · intro x rest h h1
    simp [parse_inputs, h, h1]

/-- C8 witness: the amended characterization applied at concrete inputs —
a list of pairs kept as itself, a two-element sequence of atoms wrapped,
and a one-element sequence of a bare node rejected. -/
theorem c8_parse_inputs_amended_witness :
    parse_inputs (.seq [.seq [.node 1, .int 0], .node 2])
      = .ok (.seq [.seq [.node 1, .int 0], .node 2])
  ∧ parse_inputs (.seq [.int 3, .int 4])
      = .ok (.seq [.seq [.int 3, .int 4]])
  ∧ parse_inputs (.seq [.node 1]) = .error .cannotParse :=
  ⟨c8_parse_inputs_amended.2.2.1 (.seq [.node 1, .int 0]) [.node 2] rfl,
   c8_parse_inputs_amended.2.2.2.1 (.int 3) (.int 4) rfl,
   c8_parse_inputs_amended.2.2.2.2.1 (.node 1) [] rfl (by decide)⟩

/-- C9: for every node and every `k`, the attribute access `node.out<k>`
evaluates to the pair `(node, k)` — through the instance attributes
installed for `k < 256` (lines 32-33) and through `__getattr__`
(lines 61-64) beyond — with `k` entirely unconstrained by the node's
declared edges or output slots: no bounds check is performed. -/
theorem c9_out_attr_unchecked (node : GNode) (k : Nat) :
    out_attr node.nid k = (node.nid, k) := by
  unfold out_attr instance_out_attrs getattr_out
  by_cases h : k < 256 <;> simp [h]

/-- C10: the seeding step of lines 248-254 validates no lengths.  First
conjunct: for every boundary-node list and every (shorter, equal or
longer) tensor sequence, a call that performs only the seeding completes
without error and the table holds exactly the `zip`-matched pairs.
Second and third conjuncts: with two boundary nodes and three tensors the
surplus tensor is silently ignored; with three boundary nodes and one
tensor the unmatched nodes are simply left unseeded. -/
theorem c10_seeding_no_length_check :
    (∀ (xs cs : List Int) (ns cns os : List Nat) (b rev jacF : Bool),
      rgn_forward ⟨ns, cns, os, b⟩ [] xs cs rev jacF true
        = .ok (.table (seedInto (seedInto [] xs (if rev then os else ns))
            cs cns) none))
  ∧ (∀ x0 x1 x2 : Int,
      rgn_forward ⟨[10, 11], [], [99], false⟩ [] [x0, x1, x2] [] false
          false true
        = .ok (.table [(.node 10 0, x0), (.node 11 0, x1)] none))
  ∧ (∀ x0 : Int,
      rgn_forward ⟨[10, 11, 12], [], [99], false⟩ [] [x0] [] false false
          true
        = .ok (.table [(.node 10 0, x0)] none)) := by
  refine ⟨?_, fun x0 x1 x2 => rfl, fun x0 => rfl⟩
  intro xs cs ns cns os b rev jacF
  cases rev <;> rfl

end FrEIA
